import Mathlib

/-!
Shallow embedding of `src/examples/kvdb.rs`: an in-memory key-value store
served over HTTP, where the logical operation is chosen by the `action`
field of a form-url-encoded request body rather than by the HTTP verb.

The Rust `HashMap<String, String>` (used both for the shared database and
for the decoded request parameters) is modelled as `AList`, a finite map
given by an association list with no duplicate keys: iteration order of a
`HashMap` is unspecified, so only the map view (lookup / set of entries /
key uniqueness) is meaningful, and `AList` captures exactly that while
staying executable.
-/

/-- The subset of `hyper::Method` values the program constructs or matches
on (`Method::GET`, `Method::POST`, `Method::PUT`, `Method::DELETE`). -/
inductive Method where
  | GET
  | POST
  | PUT
  | DELETE
deriving DecidableEq, Repr

/-- `Display` for `hyper::Method`, as used by `format!("{}", method)` in
`make_row`. -/
def Method.render : Method → String
  | Method.GET => "GET"
  | Method.POST => "POST"
  | Method.PUT => "PUT"
  | Method.DELETE => "DELETE"

/-- A `HashMap<String, String>` viewed as a finite map. -/
abbrev StrMap : Type := AList (fun _ : String => String)

/-- `HashMap::new()`. -/
def StrMap.empty : StrMap := ∅

/-- `map.insert(k, v)`: upsert, overwriting any existing value for `k`. -/
def StrMap.insert (m : StrMap) (k v : String) : StrMap := AList.insert k v m

/-- `map.remove(k)`: removes the entry for `k` if present. -/
def StrMap.erase (m : StrMap) (k : String) : StrMap := AList.erase k m

/-- `map.get(k)`. -/
def StrMap.lookup (m : StrMap) (k : String) : Option String := AList.lookup k m

/-- The shared database (`Arc<Mutex<HashMap<String, String>>>`); the lock
serializes accesses, so one request's effect is a pure map transformation. -/
abbrev Store : Type := StrMap

/-- The decoded request parameters
(`form_urlencoded::parse(..).collect::<HashMap<_, _>>()`). -/
abbrev Params : Type := StrMap

/-- An HTTP response as the program builds it: a status code and a body.
`Response::new(body)` has status 200; the error paths set 422 or 405. -/
structure HttpResponse where
  status : Nat
  body : String
deriving DecidableEq, Repr

/-- `kvdb.rs` line 21: `static MISSING_KEY`. -/
def MISSING_KEY : String := "Missing 'key' field"

/-- `kvdb.rs` line 22: `static MISSING_VALUE`. -/
def MISSING_VALUE : String := "Missing 'value' field"

/-- `make_row` (`kvdb.rs` lines 24-51): renders one HTML table row. -/
def make_row (method : Method) (key value : Option String) : String :=
  let button :=
    match method with
    | Method.POST => "Insert"
    | Method.DELETE => "Delete"
    | _ => "Unsupported"
  let key_field :=
    match key with
    | some k => "<input type=\"hidden\", name=\"key\" value=\"" ++ k ++ "\">" ++ k
    | none => "<input type=\"text\" name=\"key\">"
  let value_field :=
    match value with
    | some v => v
    | none => "<input type=\"text\" name=\"value\">"
  let cells : List String :=
    ["<td>" ++ key_field ++ "</td>",
     "<td>" ++ value_field ++ "</td>",
     "<td><input type=\"submit\" value=\"" ++ button ++ "\"></td>"]
  "<tr><form method=\"POST\">" ++ String.join cells ++
    "<input type=\"hidden\" name=\"action\" value=\"" ++ method.render ++
    "\"></form></tr>"

/-- The final `Ok(Response::new(..))` body (`kvdb.rs` lines 125-135): one
delete-row per database entry followed by one blank insert-row. -/
def renderTable (database : Store) : String :=
  "<html><body><table>" ++
    String.join
      (database.entries.map (fun e => make_row Method.DELETE (some e.1) (some e.2))) ++
    make_row Method.POST none none ++
    "</table></body></html>"

/-- The first `match` of `process` (`kvdb.rs` lines 66-78): resolve the
logical method from the optional `action` parameter. `none` is the early
422 return for an unrecognized value. -/
def resolveMethod (a : Option String) : Option Method :=
  match a with
  | none => some Method.GET
  | some s =>
      if s = "GET" then some Method.GET
      else if s = "PUT" then some Method.PUT
      else if s = "DELETE" then some Method.DELETE
      else if s = "POST" then some Method.POST
      else none

/-- `process` (`kvdb.rs` lines 55-136), after the body has been decoded
into `params`: returns the database after the request together with the
response. The Rust control flow (early `return`s on the error paths, fall
through to the shared render for GET/POST/DELETE) is flattened into one
expression; `Response::builder().status(S).body(B)` becomes `⟨S, B⟩` and
the final `Response::new` is `⟨200, renderTable db⟩`. -/
def process (database : Store) (params : Params) : Store × HttpResponse :=
  match resolveMethod (params.lookup "action") with
  | none =>
      (database, ⟨422, "Incorrect value for parameter 'action'"⟩)
  | some method =>
      match method with
      | Method.GET =>
          (database, ⟨200, renderTable database⟩)
      | Method.POST =>
          match params.lookup "key", params.lookup "value" with
          | some key, some value =>
              let db := database.insert key value
              (db, ⟨200, renderTable db⟩)
          | none, _ =>
              (database, ⟨422, MISSING_KEY⟩)
          | _, none =>
              (database, ⟨422, MISSING_VALUE⟩)
      | Method.DELETE =>
          match params.lookup "key" with
          | some key =>
              let db := database.erase key
              (db, ⟨200, renderTable db⟩)
          | none =>
              (database, ⟨422, MISSING_KEY⟩)
      | Method.PUT =>
          (database, ⟨405, "Only supports POST, GET, and DELETE"⟩)

/-- An inbound HTTP request as `process` receives it: the transport-level
verb (`req.method()`, which the program never consults) and the decoded
form pairs of the body, in body order. -/
structure HttpRequest where
  verb : Method
  bodyPairs : List (String × String)

/-- `form_urlencoded::parse(..).into_owned().collect::<HashMap<_, _>>()`
(`kvdb.rs` lines 60-62): fold the decoded pairs into a map by repeated
insertion, so a later occurrence of a field overwrites an earlier one. -/
def collectParams (pairs : List (String × String)) : Params :=
  pairs.foldl (fun m p => m.insert p.1 p.2) StrMap.empty

/-- `process` on a whole request: decode/collect the body, then dispatch.
The verb is taken from the request but never examined. -/
def processRequest (database : Store) (req : HttpRequest) : Store × HttpResponse :=
  process database (collectParams req.bodyPairs)

/-- A sequence of `Insert(k, v)` store operations (the POST branch of
`process`, `kvdb.rs` lines 82-89) applied in order. -/
def applyInserts (s : Store) (ops : List (String × String)) : Store :=
  ops.foldl (fun m p => m.insert p.1 p.2) s

/-- Concrete request parameters: `action=PUT`. -/
def putParams : Params := StrMap.insert StrMap.empty "action" "PUT"

/-- Concrete request parameters: `action=FOO` (an unrecognized value). -/
def fooParams : Params := StrMap.insert StrMap.empty "action" "FOO"

/-- Concrete request parameters: `action=POST&key=a&value=1`. -/
def postParams : Params :=
  StrMap.insert (StrMap.insert (StrMap.insert StrMap.empty "action" "POST") "key" "a") "value" "1"

/-- Concrete request parameters: `action=DELETE&key=a`. -/
def deleteParams : Params :=
  StrMap.insert (StrMap.insert StrMap.empty "action" "DELETE") "key" "a"

/-- Concrete request parameters: `action=POST&key=&value=` (both fields
present, both bound to the empty string). -/
def emptyFieldParams : Params :=
  StrMap.insert (StrMap.insert (StrMap.insert StrMap.empty "action" "POST") "key" "") "value" ""

theorem StrMap.lookup_insert_self (m : StrMap) (k v : String) :
    (m.insert k v).lookup k = some v :=
  AList.lookup_insert m

theorem StrMap.lookup_insert_other (m : StrMap) (k v k' : String) (h : k' ≠ k) :
    (m.insert k v).lookup k' = m.lookup k' :=
  AList.lookup_insert_ne h

theorem StrMap.lookup_erase_self (m : StrMap) (k : String) :
    (m.erase k).lookup k = none :=
  AList.lookup_erase k m

theorem StrMap.lookup_erase_other (m : StrMap) (k k' : String) (h : k' ≠ k) :
    (m.erase k).lookup k' = m.lookup k' :=
  AList.lookup_erase_ne h

/-- Removing a key that is not in the map leaves the map intact. -/
theorem StrMap.erase_of_lookup_none (m : StrMap) (k : String) (h : m.lookup k = none) :
    m.erase k = m := by
  have hk : k ∉ m := AList.lookup_eq_none.mp h
  apply AList.ext
  exact List.kerase_of_not_mem_keys (fun hmem => hk (AList.mem_keys.mpr hmem))

/-- Looking up a key after folding a pair list into a map by repeated
insertion yields the value of the last pair with that key, falling back to
the initial map when the key never occurs. -/
theorem lookup_foldl_insert (pairs : List (String × String)) (m : StrMap) (k : String) :
    (pairs.foldl (fun acc p => acc.insert p.1 p.2) m).lookup k =
      match (pairs.filter (fun p => p.1 == k)).getLast? with
      | some q => some q.2
      | none => m.lookup k := by
  induction pairs using List.reverseRecOn generalizing m with
  | nil => simp
  | append_singleton xs p ih =>
    rw [List.foldl_append, List.filter_append]
    simp only [List.foldl_cons, List.foldl_nil]
    by_cases hp : p.1 = k
    · have hfil : List.filter (fun q => q.1 == k) [p] = [p] := by
        simp [List.filter, hp]
      rw [hfil, List.getLast?_concat, hp, StrMap.lookup_insert_self]
    · have hfil : List.filter (fun q => q.1 == k) [p] = [] := by
        simp [List.filter, beq_eq_false_iff_ne.mpr hp]
      rw [hfil, List.append_nil,
        StrMap.lookup_insert_other _ _ _ _ (fun h => hp h.symm), ih]

/-- C1: a decoded body whose `action` field equals "PUT" passes action
validation (the handler does not return the 422 "Incorrect value" response)
and yields HTTP 405 with body "Only supports POST, GET, and DELETE", with
the store unchanged. -/
theorem putActionFallsToUnsupported (s : Store) (params : Params)
    (h : params.lookup "action" = some "PUT") :
    process s params = (s, ⟨405, "Only supports POST, GET, and DELETE"⟩) := by
  have hr : resolveMethod (params.lookup "action") = some Method.PUT := by
    rw [h]; rfl
  unfold process
  rw [hr]

/-- Witness for C1 at `action=PUT` on the empty store. -/
theorem putActionFallsToUnsupported_witness :
    process StrMap.empty putParams =
      (StrMap.empty, ⟨405, "Only supports POST, GET, and DELETE"⟩) :=
  putActionFallsToUnsupported StrMap.empty putParams (by decide)

/-- C2: a decoded body whose `action` field is present and none of "GET",
"POST", "PUT", "DELETE" (exact, case-sensitive comparison) yields HTTP 422
with body "Incorrect value for parameter 'action'" and leaves the store
unchanged. -/
theorem unknownActionRejected (s : Store) (params : Params) (a : String)
    (h : params.lookup "action" = some a)
    (hg : a ≠ "GET") (hp : a ≠ "POST") (hu : a ≠ "PUT") (hd : a ≠ "DELETE") :
    process s params = (s, ⟨422, "Incorrect value for parameter 'action'"⟩) := by
  have hr : resolveMethod (params.lookup "action") = none := by
    rw [h]
    simp [resolveMethod, hg, hp, hu, hd]
  unfold process
  rw [hr]

/-- Witness for C2 at `action=FOO` on the empty store. -/
theorem unknownActionRejected_witness :
    process StrMap.empty fooParams =
      (StrMap.empty, ⟨422, "Incorrect value for parameter 'action'"⟩) :=
  unknownActionRejected StrMap.empty fooParams "FOO"
    (by decide) (by decide) (by decide) (by decide) (by decide)

/-- C3: on a body resolving to Insert (`action=POST`): an absent `key`
field yields 422 "Missing 'key' field"; a present `key` with an absent
`value` yields 422 "Missing 'value' field"; with both present, (key, value)
is upserted into the store and the response is 200. -/
theorem postActionBehavior (s : Store) (params : Params)
    (h : params.lookup "action" = some "POST") :
    process s params =
      match params.lookup "key", params.lookup "value" with
      | some k, some v => (s.insert k v, ⟨200, renderTable (s.insert k v)⟩)
      | none, _ => (s, ⟨422, "Missing 'key' field"⟩)
      | _, none => (s, ⟨422, "Missing 'value' field"⟩) := by
  have hr : resolveMethod (params.lookup "action") = some Method.POST := by
    rw [h]; rfl
  unfold process
  rw [hr]
  rcases hk : params.lookup "key" with _ | k <;>
    rcases hv : params.lookup "value" with _ | v <;>
      simp [MISSING_KEY, MISSING_VALUE]

/-- Witness for C3 at `action=POST&key=a&value=1` on the empty store. -/
theorem postActionBehavior_witness :
    process StrMap.empty postParams =
      match postParams.lookup "key", postParams.lookup "value" with
      | some k, some v =>
          (StrMap.empty.insert k v, ⟨200, renderTable (StrMap.empty.insert k v)⟩)
      | none, _ => (StrMap.empty, ⟨422, "Missing 'key' field"⟩)
      | _, none => (StrMap.empty, ⟨422, "Missing 'value' field"⟩) :=
  postActionBehavior StrMap.empty postParams (by decide)

/-- C4: after a sequence of Insert operations, the store's entry list
contains each key at most once (so each inserted key exactly once), and
every inserted key is associated with the value of the latest Insert for
that key (last write wins). -/
theorem insertSequenceLastWriteWins (s : Store) (ops : List (String × String)) (k : String)
    (hk : k ∈ ops.map Prod.fst) :
    (applyInserts s ops).keys.Nodup ∧
    (applyInserts s ops).lookup k =
      ((ops.filter (fun p => p.1 == k)).getLast?).map Prod.snd := by
  constructor
  · exact AList.keys_nodup _
  · unfold applyInserts
    rw [lookup_foldl_insert]
    rcases hl : (ops.filter (fun p => p.1 == k)).getLast? with _ | q
    · exfalso
      rw [List.getLast?_eq_none_iff] at hl
      obtain ⟨p, hp, hpk⟩ := List.mem_map.mp hk
      have hmem : p ∈ ops.filter (fun p => p.1 == k) :=
        List.mem_filter.mpr ⟨hp, by simp [hpk]⟩
      rw [hl] at hmem
      exact List.not_mem_nil p hmem
    · rw [hl]
      rfl

/-- Witness for C4 with two inserts on the same key: the second value
wins. -/
theorem insertSequenceLastWriteWins_witness :
    (applyInserts StrMap.empty [("a", "1"), ("a", "2")]).keys.Nodup ∧
    (applyInserts StrMap.empty [("a", "1"), ("a", "2")]).lookup "a" =
      (([("a", "1"), ("a", "2")].filter (fun p => p.1 == "a")).getLast?).map Prod.snd :=
  insertSequenceLastWriteWins StrMap.empty [("a", "1"), ("a", "2")] "a" (by decide)

/-- C5 counterexample: with the store already mapping "a" to "1",
Insert("a", "2") followed by Delete("a") does not return the store to its
prior state for key "a" (the lookup is `none` afterwards, not `some "1"`),
refuting the claim in the case where the key was already mapped. -/
theorem insertThenDeleteRoundTrip_cex :
    ¬ ((((StrMap.empty.insert "a" "1").insert "a" "2").erase "a").lookup "a" =
        (StrMap.empty.insert "a" "1").lookup "a") := by
  decide

/-- C5 (amended): provided key `k` is unmapped beforehand, Insert(k, v)
followed by Delete(k) returns the store to its prior state at every key. -/
theorem insertThenDeleteRoundTrip (s : Store) (k v k' : String)
    (h : s.lookup k = none) :
    ((s.insert k v).erase k).lookup k' = s.lookup k' := by
  by_cases hk : k' = k
  · subst hk
    rw [StrMap.lookup_erase_self, h]
  · rw [StrMap.lookup_erase_other _ _ _ hk, StrMap.lookup_insert_other _ _ _ _ hk]

/-- Witness for amended C5: insert then delete "a" on the empty store,
observed at key "b". -/
theorem insertThenDeleteRoundTrip_witness :
    ((StrMap.empty.insert "a" "1").erase "a").lookup "b" = StrMap.empty.lookup "b" :=
  insertThenDeleteRoundTrip StrMap.empty "a" "1" "b" (by decide)

/-- C6: a DELETE request for key `k` leaves `k` absent from the resulting
store whether or not it existed, and succeeds with status 200; when `k` was
absent the request is a no-op on the store. -/
theorem deleteActionBehavior (s : Store) (params : Params) (k : String)
    (ha : params.lookup "action" = some "DELETE")
    (hk : params.lookup "key" = some k) :
    ((process s params).1).lookup k = none ∧
    (process s params).2.status = 200 ∧
    (s.lookup k = none → (process s params).1 = s) := by
  have hr : resolveMethod (params.lookup "action") = some Method.DELETE := by
    rw [ha]; rfl
  have heq : process s params = (s.erase k, ⟨200, renderTable (s.erase k)⟩) := by
    unfold process
    rw [hr, hk]
  rw [heq]
  exact ⟨StrMap.lookup_erase_self s k, rfl,
    fun hnone => StrMap.erase_of_lookup_none s k hnone⟩

/-- Witness for C6: deleting the absent key "a" from the empty store. -/
theorem deleteActionBehavior_witness :
    ((process StrMap.empty deleteParams).1).lookup "a" = none ∧
    (process StrMap.empty deleteParams).2.status = 200 ∧
    (process StrMap.empty deleteParams).1 = StrMap.empty := by
  have h := deleteActionBehavior StrMap.empty deleteParams "a" (by decide) (by decide)
  exact ⟨h.1, h.2.1, h.2.2 (by decide)⟩

/-- C7: whenever the handler answers with status 422 (missing key, missing
value, or incorrect action value), the store after the request equals the
store before it. -/
theorem validationFailureLeavesStoreUnchanged (s : Store) (params : Params)
    (h : (process s params).2.status = 422) :
    (process s params).1 = s := by
  rcases hr : resolveMethod (params.lookup "action") with _ | m
  · have heq : process s params = (s, ⟨422, "Incorrect value for parameter 'action'"⟩) := by
      unfold process; rw [hr]
    rw [heq]
  · cases m with
    | GET =>
        have heq : process s params = (s, ⟨200, renderTable s⟩) := by
          unfold process; rw [hr]
        rw [heq]
    | PUT =>
        have heq : process s params = (s, ⟨405, "Only supports POST, GET, and DELETE"⟩) := by
          unfold process; rw [hr]
        rw [heq]
    | POST =>
        rcases hk : params.lookup "key" with _ | k
        · rcases hv : params.lookup "value" with _ | v <;>
          · have heq : process s params = (s, ⟨422, MISSING_KEY⟩) := by
              unfold process; rw [hr, hk, hv]
            rw [heq]
        · rcases hv : params.lookup "value" with _ | v
          · have heq : process s params = (s, ⟨422, MISSING_VALUE⟩) := by
              unfold process; rw [hr, hk, hv]
            rw [heq]
          · have heq : process s params =
                (s.insert k v, ⟨200, renderTable (s.insert k v)⟩) := by
              unfold process; rw [hr, hk, hv]
            rw [heq] at h
            simp at h
    | DELETE =>
        rcases hk : params.lookup "key" with _ | k
        · have heq : process s params = (s, ⟨422, MISSING_KEY⟩) := by
            unfold process; rw [hr, hk]
          rw [heq]
        · have heq : process s params =
              (s.erase k, ⟨200, renderTable (s.erase k)⟩) := by
            unfold process; rw [hr, hk]
          rw [heq] at h
          simp at h

/-- Witness for C7: `action=FOO` is answered with 422 and the empty store
is unchanged. -/
theorem validationFailureLeavesStoreUnchanged_witness :
    (process StrMap.empty fooParams).1 = StrMap.empty :=
  validationFailureLeavesStoreUnchanged StrMap.empty fooParams (by decide)

/-- C8: an Insert request whose `key` and `value` fields are both present
and bound to the empty string succeeds with status 200 (no 422) and
upserts ("", "") into the store: only absence of a field is rejected. -/
theorem emptyStringFieldsAccepted (s : Store) (params : Params)
    (ha : params.lookup "action" = some "POST")
    (hk : params.lookup "key" = some "")
    (hv : params.lookup "value" = some "") :
    (process s params).2.status = 200 ∧
    (process s params).1 = s.insert "" "" := by
  have hr : resolveMethod (params.lookup "action") = some Method.POST := by
    rw [ha]; rfl
  have heq : process s params = (s.insert "" "", ⟨200, renderTable (s.insert "" "")⟩) := by
    unfold process
    rw [hr, hk, hv]
  rw [heq]
  exact ⟨rfl, rfl⟩

/-- Witness for C8 at `action=POST&key=&value=` on the empty store. -/
theorem emptyStringFieldsAccepted_witness :
    (process StrMap.empty emptyFieldParams).2.status = 200 ∧
    (process StrMap.empty emptyFieldParams).1 = StrMap.empty.insert "" "" :=
  emptyStringFieldsAccepted StrMap.empty emptyFieldParams
    (by decide) (by decide) (by decide)

/-- C9: two requests with identical bodies but different transport-level
HTTP verbs produce the same response and the same store effect — dispatch
reads only the body's `action` field, never the verb. -/
theorem dispatchIgnoresTransportVerb (db : Store) (m₁ m₂ : Method)
    (pairs : List (String × String)) :
    processRequest db ⟨m₁, pairs⟩ = processRequest db ⟨m₂, pairs⟩ :=
  rfl

/-- C10: collecting the decoded form pairs into the parameter map keeps,
for every field name, the value of the last occurrence of that name in the
body — later duplicates overwrite earlier ones. -/
theorem duplicateFieldLastOccurrenceWins (pairs : List (String × String)) (name : String) :
    (collectParams pairs).lookup name =
      ((pairs.filter (fun p => p.1 == name)).getLast?).map Prod.snd := by
  unfold collectParams
  rw [lookup_foldl_insert]
  rcases hl : (pairs.filter (fun p => p.1 == name)).getLast? with _ | q
  · rw [hl]
    rfl
  · rw [hl]
    rfl
